import Mathlib

/-!
# Verification of the `flux` snapshot CLI core

A shallow embedding of the `flux` command-line tool (snapshot lifecycle
engine over a ZFS-like storage backend).  Pure helpers (`strconv.Atoi`,
`getCreationTime`, `getSnapshots` and its sort) are translated as Lean
functions; the effectful command actions (`purgeCommand`, `snapshotCommand`,
`send`) are translated as trace generators: each returns the list of
backend/process events it performs, in order, together with its
`error`-typed result.  Time instants are epoch seconds as `Int` (Go's
`time.Time` values here only ever come from `time.Unix(v, 0)` and are
compared with `Before`).

The embedding follows the current revision of the source; where the older
revision (`main.go`) differs (fatal destroy errors, label-parsed
timestamps, no full-send branch) this is noted at the relevant claim.
-/

namespace Flux

/-- `const TypeSnapshot = "snapshot"`. -/
def TypeSnapshot : String := "snapshot"

/-- `const creationProp = "creation"`. -/
def creationProp : String := "creation"

/-- Numeric value of a decimal digit character, `none` otherwise. -/
def digitVal (c : Char) : Option Nat :=
  if c.isDigit then some (c.toNat - 48) else none

/-- Accumulate a non-empty all-decimal-digit character list into a `Nat`;
`none` if the list is empty or contains a non-digit. -/
def atoiDigits : List Char → Option Nat
  | [] => none
  | cs => cs.foldl (fun acc c =>
      match acc, digitVal c with
      | some n, some d => some (n * 10 + d)
      | _, _ => none) (some 0)

/-- Models Go's `strconv.Atoi`: an optional sign followed by at least one
decimal digit; anything else is a syntax error (`none`).  Overflow is not
modelled: the values in play are epoch seconds, far below `2^63`. -/
def atoi (s : String) : Option Int :=
  match s.data with
  | '+' :: rest => (atoiDigits rest).map Int.ofNat
  | '-' :: rest => (atoiDigits rest).map (fun n => -(n : Int))
  | l => (atoiDigits l).map Int.ofNat

deriving instance DecidableEq for Except

/-- One child dataset as returned by the backend's `Children(0)` call:
its qualified name, its backend-classified type, the result of
`GetProperty("creation")` on it, and the result a `Destroy` call on it
would report.  (Children of snapshots are never enumerated by the program,
so child entries carry no child list of their own.) -/
structure DsEntry where
  name : String
  typ : String
  creationProp : Except String String
  destroyRes : Except String Unit
  deriving DecidableEq, Repr

/-- A dataset handle on which the program calls `Children(0)` and
`Snapshot(label, false)`: the outcome of those two backend calls is part
of the modelled backend state. -/
structure Dataset where
  name : String
  childrenRes : Except String (List DsEntry)
  snapshotRes : Except String Unit
  deriving DecidableEq, Repr

/-- The storage backend: `zfs.GetDataset` by name. -/
structure Zfs where
  getDataset : String → Except String Dataset

/-- `getCreationTime`: reads the `creation` property, converts it with
`strconv.Atoi`, and interprets it as `time.Unix(v, 0)` (epoch seconds). -/
def getCreationTime (d : DsEntry) : Except String Int :=
  match d.creationProp with
  | .error e => .error e
  | .ok p =>
      match atoi p with
      | none => .error ("invalid syntax: " ++ p)
      | some v => .ok v

/-- A catalog entry (`ExtDataset`): the backing child handle, the dataset
name before `@` (`strings.Split(s.Name, "@")[0]`), and the resolved
creation instant. -/
structure ExtDataset where
  dataset : DsEntry
  baseName : String
  created : Int
  deriving DecidableEq, Repr

/-- The characters before the first `'@'`. -/
def takeUntilAt : List Char → List Char
  | [] => []
  | c :: rest => if c = '@' then [] else c :: takeUntilAt rest

/-- Models `strings.Split(s, "@")[0]`: the portion of `s` before its
first `@` (all of `s` when it has none). -/
def baseNameOf (s : String) : String := ⟨takeUntilAt s.data⟩

/-- The `byCreated` comparator: `s[i].Created.Before(s[j].Created)`. -/
def byCreatedLess (a b : ExtDataset) : Bool :=
  a.created < b.created

/-- Insert `x` into an already-processed prefix, sinking it left past
every element `y` with `lt x y` — exactly how one step of Go's
`insertionSort` places `data[i]` into the sorted range to its left. -/
def insertBy (lt : α → α → Bool) (x : α) : List α → List α
  | [] => [x]
  | y :: ys => if lt x y then x :: y :: ys else y :: insertBy lt x ys

/-- Models `sort.Sort` as used here: Go's `pdqsort` runs plain insertion
sort on every range of length ≤ 12, so on the snapshot counts exercised
below this is exact; on longer inputs it still agrees with `sort.Sort` on
the sortedness of the output (both are correct sorts for `byCreated`). -/
def sortSort (lt : α → α → Bool) (l : List α) : List α :=
  l.foldl (fun acc x => insertBy lt x acc) []

/-- `getSnapshots`' collection loop: keep the children classified as
snapshots whose creation time resolves; a resolution failure skips the
entry (`continue`) and is not an error. -/
def collectSnapshots : List DsEntry → List ExtDataset
  | [] => []
  | s :: rest =>
      if s.typ = TypeSnapshot then
        match getCreationTime s with
        | .error _ => collectSnapshots rest
        | .ok created =>
            { dataset := s
              baseName := baseNameOf s.name
              created := created } :: collectSnapshots rest
      else collectSnapshots rest

/-- `getSnapshots`: enumerate children (propagating a backend failure),
collect the resolvable snapshot entries, and sort them with
`sort.Sort(byCreated(out))`. -/
def getSnapshots (set : Dataset) : Except String (List ExtDataset) :=
  match set.childrenRes with
  | .error e => .error e
  | .ok sets => .ok (sortSort byCreatedLess (collectSnapshots sets))

/-- Errors surfaced by the command actions.  `backend` wraps an error
value returned by a backend or process call; `panic` is a Go runtime
panic (which aborts the action just as a returned error would abort it,
but crashes the process); `noDest` is `errors.New("no dest specified")`. -/
inductive GoErr where
  | backend (msg : String)
  | panic (msg : String)
  | noDest
  deriving DecidableEq, Repr

/-- Observable backend/process events, in the order the action performs
them. `destroy` records the entry's name together with its resolved
creation instant; `spawn` is the `ssh.Start()` call; `wait` is
`ssh.Wait()`; `pipeOpen`/`pipeClose` bracket the subprocess stdin pipe. -/
inductive Event where
  | getDataset (name : String)
  | createSnapshot (dataset label : String) (recursive : Bool)
  | spawn (target dest : String) (uid gid : Nat)
  | pipeOpen
  | pipeClose
  | fullSend (snapshot : String)
  | incrSend (prev snapshot : String)
  | wait
  | destroy (name : String) (created : Int)
  | logError (msg : String)
  | logDebug (msg : String)
  deriving DecidableEq, Repr

/-! ## Retention sweep (`purgeCommand`) -/

/-- The body of `purgeCommand`'s `for` loop for a single child `d`:
skip non-snapshots; a creation-time failure is logged and skipped; an
entry strictly older than `mark` is logged (`destory %s`) and, unless
`--dry` is set, destroyed, a destroy failure being logged
(`unable destroy`) rather than returned. -/
def purgeEntryTrace (mark : Int) (dry : Bool) (d : DsEntry) : List Event :=
  if d.typ ≠ TypeSnapshot then []
  else
    match getCreationTime d with
    | .error e => [.logError e]
    | .ok created =>
        if created < mark then
          .logDebug d.name ::
            (if dry then []
             else
               match d.destroyRes with
               | .ok _ => [.destroy d.name created]
               | .error e => [.destroy d.name created, .logError e])
        else []

/-- `purgeCommand`'s loop over the children of the root dataset. -/
def purgeLoop (mark : Int) (dry : Bool) : List DsEntry → List Event
  | [] => []
  | d :: rest => purgeEntryTrace mark dry d ++ purgeLoop mark dry rest

/-- The `purge` action.  `args` are the dataset names from the command
line (`clix.Args()`), which the action never reads: it looks up the
fixed dataset `"tank"`.  `mark = now - olderThan`; enumeration failures
abort the sweep, after which the loop itself always returns `nil`. -/
def purgeAction (args : List String) (olderThan now : Int) (dry : Bool)
    (z : Zfs) : List Event × Except GoErr Unit :=
  let _ := args
  let mark := now - olderThan
  match z.getDataset "tank" with
  | .error e => ([.getDataset "tank"], .error (.backend e))
  | .ok data =>
      match data.childrenRes with
      | .error e => ([.getDataset "tank"], .error (.backend e))
      | .ok sets => (.getDataset "tank" :: purgeLoop mark dry sets, .ok ())

/-! ## Transfer pipeline (`send` / `sshSend`) -/

/-- A numeric process credential (`syscall.Credential`). -/
structure Credential where
  uid : Nat
  gid : Nat
  deriving DecidableEq, Repr

/-- The subprocess command being prepared (`exec.Cmd`): program, argument
vector, and the optional explicit credential of `SysProcAttr`
(`none` = inherit the caller's identity). -/
structure Cmd where
  path : String
  args : List String
  credential : Option Credential
  deriving DecidableEq, Repr

/-- `sshSend`: `exec.Command("ssh", target, "zfs", "recv", dest)`.
A freshly built `exec.Cmd` has no `SysProcAttr`, hence no credential. -/
def sshSend (target dest : String) : Cmd :=
  { path := "ssh", args := [target, "zfs", "recv", dest], credential := none }

/-- The first statements of `send`: build the ssh command and set
`SysProcAttr.Credential` to the given uid/gid unconditionally. -/
def sendCmd (target dest : String) (uid gid : Nat) : Cmd :=
  { sshSend target dest with credential := some { uid := uid, gid := gid } }

/-- Models `uint32(n)` on the `Nat` returned for a flag. -/
def uint32 (n : Nat) : Nat := n % 2 ^ 32

/-- Models `clix.Uint(name)` of the CLI library: the flag's value when
given, and the `UintFlag`'s zero default when the flag is omitted. -/
def cliUint (flag : Option Nat) : Nat := flag.getD 0

/-- Outcomes of the external calls `send` makes, fixed ahead of time so
the action is a function: whether `StdinPipe` and `Start` succeed,
whether the snapshot stream is written without error, and what
`ssh.Wait()` reports. -/
structure SendEnv where
  stdinPipeOk : Bool
  startOk : Bool
  streamOk : Bool
  waitRes : Except String Unit
  deriving Repr

/-- The part of `send` executed once `defer in.Close()` is registered:
start the subprocess, then stream either a full send (`prev == nil`) or
an incremental send, then wait.  Go evaluates `return ssh.Wait()` before
running deferred calls, so `wait` is emitted here and `pipeClose` is
appended by the caller `send` afterwards. -/
def sendBody (target dest : String) (uid gid : Nat) (snapName : String)
    (prev : Option ExtDataset) (env : SendEnv) :
    List Event × Except GoErr Unit :=
  let spawnEv := Event.spawn target dest uid gid
  if env.startOk = false then ([spawnEv], .error (.backend "start failed"))
  else
    match prev with
    | none =>
        if env.streamOk then
          ([spawnEv, .fullSend snapName, .wait], (env.waitRes).mapError .backend)
        else ([spawnEv, .fullSend snapName], .error (.backend "stream failed"))
    | some p =>
        if env.streamOk then
          ([spawnEv, .incrSend p.dataset.name snapName, .wait],
            (env.waitRes).mapError .backend)
        else
          ([spawnEv, .incrSend p.dataset.name snapName],
            .error (.backend "stream failed"))

/-- `send`: acquire the stdin pipe (an acquisition failure returns before
the `defer` is registered), run the body, and close the pipe on exit —
the deferred `in.Close()` runs when `send` returns, i.e. after every
event of the body, including `ssh.Wait()` on the success path. -/
def send (target dest : String) (uid gid : Nat) (snapName : String)
    (prev : Option ExtDataset) (env : SendEnv) :
    List Event × Except GoErr Unit :=
  if env.stdinPipeOk = false then ([], .error (.backend "stdin pipe failed"))
  else
    let b := sendBody target dest uid gid snapName prev env
    (.pipeOpen :: b.1 ++ [.pipeClose], b.2)

/-! ## Snapshot command (`snapshotCommand`) -/

/-- The flag values of one `snapshot` invocation: `--send` target,
`--dest`, `--uid`/`--gid` (already through `uint32(clix.Uint(..))`), and
the `--init` flag. -/
structure SnapCtx where
  target : String
  dest : String
  uid : Nat
  gid : Nat
  initS : Bool
  deriving Repr

/-- `prev := snapshots[len(snapshots)-1]` followed by the `--init`
override.  On an empty slice the index expression is `snapshots[-1]`,
a Go runtime panic (`index out of range`), reached before the `initS`
check. -/
def resolvePrev (snapshots : List ExtDataset) (initS : Bool) :
    Except GoErr (Option ExtDataset) :=
  match snapshots.getLast? with
  | none => .error (.panic "runtime error: index out of range")
  | some p => .ok (if initS then none else some p)

/-- The body of `snapshotCommand`'s loop for one dataset name: look the
dataset up, list its snapshots, resolve the predecessor, create the new
snapshot (labelled `now.Format(time.RFC3339)`, non-recursive), and — only
when a `--send` target is given — require `--dest` and run `send`. -/
def snapshotStep (z : Zfs) (ctx : SnapCtx) (label : String)
    (env : SendEnv) (name : String) : List Event × Except GoErr Unit :=
  match z.getDataset name with
  | .error e => ([.getDataset name], .error (.backend e))
  | .ok set =>
      match getSnapshots set with
      | .error e => ([.getDataset name], .error (.backend e))
      | .ok snapshots =>
          match resolvePrev snapshots ctx.initS with
          | .error e => ([.getDataset name], .error e)
          | .ok prev =>
              match set.snapshotRes with
              | .error e =>
                  ([.getDataset name, .createSnapshot name label false],
                    .error (.backend e))
              | .ok _ =>
                  let ev0 := [Event.getDataset name,
                    .createSnapshot name label false]
                  if ctx.target = "" then (ev0, .ok ())
                  else if ctx.dest = "" then (ev0, .error .noDest)
                  else
                    let s := send ctx.target ctx.dest ctx.uid ctx.gid
                      (name ++ "@" ++ label) prev env
                    (ev0 ++ s.1, s.2)

/-- The `snapshot` action: the loop over the dataset names given on the
command line, aborting on the first name whose step fails. -/
def snapshotAction (z : Zfs) (ctx : SnapCtx) (label : String)
    (env : SendEnv) : List String → List Event × Except GoErr Unit
  | [] => ([], .ok ())
  | n :: rest =>
      let s := snapshotStep z ctx label env n
      match s.2 with
      | .error e => (s.1, .error e)
      | .ok _ =>
          let r := snapshotAction z ctx label env rest
          (s.1 ++ r.1, r.2)

/-! ## Concrete backend fixtures -/

/-- An environment in which every external call of `send` succeeds. -/
def envOk : SendEnv :=
  { stdinPipeOk := true, startOk := true, streamOk := true, waitRes := .ok () }

/-- A snapshot created 5 s after the epoch; destroyable. -/
def snapOld : DsEntry :=
  { name := "tank@old", typ := "snapshot", creationProp := .ok "5",
    destroyRes := .ok () }

/-- A second old snapshot (7 s), destroyable. -/
def snapOld2 : DsEntry :=
  { name := "tank@old2", typ := "snapshot", creationProp := .ok "7",
    destroyRes := .ok () }

/-- A recent snapshot (95 s). -/
def snapNew : DsEntry :=
  { name := "tank@new", typ := "snapshot", creationProp := .ok "95",
    destroyRes := .ok () }

/-- An old snapshot whose backend destroy call fails. -/
def snapStuck : DsEntry :=
  { name := "tank@stuck", typ := "snapshot", creationProp := .ok "3",
    destroyRes := .error "dataset is busy" }

/-- A snapshot whose creation property cannot be read. -/
def snapBad : DsEntry :=
  { name := "tank/data@not-a-timestamp", typ := "snapshot",
    creationProp := .error "unable to get creation property",
    destroyRes := .ok () }

/-- The root dataset `tank` with one old and one recent snapshot. -/
def tankDs : Dataset :=
  { name := "tank", childrenRes := .ok [snapOld, snapNew],
    snapshotRes := .ok () }

/-- `tank` whose middle snapshot refuses to be destroyed. -/
def tankStuckDs : Dataset :=
  { name := "tank", childrenRes := .ok [snapOld, snapStuck, snapOld2],
    snapshotRes := .ok () }

/-- An eligible snapshot of the dataset `mydata`. -/
def mydataOld : DsEntry :=
  { name := "mydata@old", typ := "snapshot", creationProp := .ok "5",
    destroyRes := .ok () }

/-- The dataset `mydata`, named on the command line in the C6 run. -/
def mydataDs : Dataset :=
  { name := "mydata", childrenRes := .ok [mydataOld], snapshotRes := .ok () }

/-- A backend holding only `tank`. -/
def zPurge : Zfs :=
  { getDataset := fun n =>
      if n = "tank" then .ok tankDs
      else .error (n ++ ": dataset does not exist") }

/-- A backend holding `tank` with the stuck snapshot. -/
def zStuck : Zfs :=
  { getDataset := fun n =>
      if n = "tank" then .ok tankStuckDs
      else .error (n ++ ": dataset does not exist") }

/-- A backend holding both `tank` and `mydata`. -/
def zTwo : Zfs :=
  { getDataset := fun n =>
      if n = "tank" then .ok tankDs
      else if n = "mydata" then .ok mydataDs
      else .error (n ++ ": dataset does not exist") }

/-- The dataset `tank/data` with an empty snapshot catalog. -/
def emptyCatDs : Dataset :=
  { name := "tank/data", childrenRes := .ok [], snapshotRes := .ok () }

/-- A backend in which `tank/data` exists but has no snapshots. -/
def zEmptyCat : Zfs :=
  { getDataset := fun n =>
      if n = "tank/data" then .ok emptyCatDs
      else .error (n ++ ": dataset does not exist") }

/-- One existing snapshot of `tank/data` (50 s). -/
def snapData : DsEntry :=
  { name := "tank/data@prev", typ := "snapshot", creationProp := .ok "50",
    destroyRes := .ok () }

/-- `tank/data` with one prior snapshot. -/
def dataDs : Dataset :=
  { name := "tank/data", childrenRes := .ok [snapData], snapshotRes := .ok () }

/-- A backend holding `tank/data` with one prior snapshot. -/
def zData : Zfs :=
  { getDataset := fun n =>
      if n = "tank/data" then .ok dataDs
      else .error (n ++ ": dataset does not exist") }

/-- Snapshot flags with no remote target and `--init` unset. -/
def ctxPlain : SnapCtx :=
  { target := "", dest := "", uid := 0, gid := 0, initS := false }

/-- Snapshot flags with a remote target but no destination. -/
def ctxRemoteNoDest : SnapCtx :=
  { target := "backup.example", dest := "", uid := 0, gid := 0, initS := false }

/-- Tie-breaking fixture: snapshot `a`, created at 100 s. -/
def tieA : DsEntry :=
  { name := "tank/data@a", typ := "snapshot", creationProp := .ok "100",
    destroyRes := .ok () }

/-- Tie-breaking fixture: snapshot `b`, also created at 100 s. -/
def tieB : DsEntry :=
  { name := "tank/data@b", typ := "snapshot", creationProp := .ok "100",
    destroyRes := .ok () }

/-- `tank/data` enumerating the tied snapshots as `[a, b]`. -/
def setAB : Dataset :=
  { name := "tank/data", childrenRes := .ok [tieA, tieB], snapshotRes := .ok () }

/-- `tank/data` enumerating the same tied snapshots as `[b, a]`. -/
def setBA : Dataset :=
  { name := "tank/data", childrenRes := .ok [tieB, tieA], snapshotRes := .ok () }

/-- `tank/data` with one valid and one unresolvable snapshot. -/
def setWithBad : Dataset :=
  { name := "tank/data", childrenRes := .ok [snapBad, snapData],
    snapshotRes := .ok () }

/-- A backend for the C9 witness. -/
def zWithBad : Zfs :=
  { getDataset := fun n =>
      if n = "tank/data" then .ok setWithBad
      else .error (n ++ ": dataset does not exist") }

end Flux

namespace Flux

/-! ## Claim theorems -/

/-- C1: the claim says that on an empty snapshot catalog the
create-and-resolve step with `initial = false` returns predecessor =
none and proceeds as a full transfer.  The code instead evaluates
`snapshots[len(snapshots)-1]` before the `--init` check, which on an
empty slice is `snapshots[-1]`: a runtime panic.  This theorem evaluates
the step on a dataset with an empty catalog: it aborts with the panic,
creating no snapshot and performing no transfer. -/
theorem snapshot_empty_catalog_panics :
    snapshotStep zEmptyCat ctxPlain "2024-01-01T00:00:00Z" envOk "tank/data"
      = ([.getDataset "tank/data"],
          .error (.panic "runtime error: index out of range")) := by
  rfl

/-- C2: the claim says the stdin pipe is closed before `ssh.Wait()` on
every exit path.  On the successful path the deferred `in.Close()` only
runs after `return ssh.Wait()` has evaluated `ssh.Wait()`, so the `wait`
event precedes `pipeClose` in the trace — the pipe is still open when
the wait begins. -/
theorem send_wait_precedes_close :
    send "backup.example" "tank/recv" 0 0 "tank/data@L" none envOk
      = ([.pipeOpen, .spawn "backup.example" "tank/recv" 0 0,
          .fullSend "tank/data@L", .wait, .pipeClose], .ok ())
    ∧ (send "backup.example" "tank/recv" 0 0 "tank/data@L" none envOk).1.indexOf
          Event.wait
        < (send "backup.example" "tank/recv" 0 0 "tank/data@L" none
            envOk).1.indexOf Event.pipeClose := by
  constructor
  · rfl
  · decide

/-- C10: when the `--uid` and `--gid` flags are omitted, `clix.Uint`
yields the flag's zero default, and `send` still installs an explicit
`syscall.Credential` — uid 0, gid 0 (root) — on the subprocess, rather
than leaving `SysProcAttr` unset to inherit the caller's identity. -/
theorem sendCmd_default_credential_is_root :
    uint32 (cliUint none) = 0
    ∧ ∀ target dest : String,
        (sendCmd target dest (uint32 (cliUint none))
            (uint32 (cliUint none))).credential = some { uid := 0, gid := 0 } := by
  exact ⟨rfl, fun _ _ => rfl⟩

/-- A destroy event produced by one purge-loop iteration carries a
creation instant strictly before the mark. -/
theorem destroy_mem_purgeEntryTrace {mark : Int} {dry : Bool} {d : DsEntry}
    {n : String} {c : Int}
    (h : Event.destroy n c ∈ purgeEntryTrace mark dry d) : c < mark := by
  unfold purgeEntryTrace at h
  split at h
  · simp at h
  · split at h
    · simp at h
    · split at h
      · split at h
        · simp_all
        · split at h <;> simp_all
      · simp at h

/-- A destroy event produced by the purge loop carries a creation
instant strictly before the mark. -/
theorem destroy_mem_purgeLoop {mark : Int} {dry : Bool} {sets : List DsEntry}
    {n : String} {c : Int}
    (h : Event.destroy n c ∈ purgeLoop mark dry sets) : c < mark := by
  induction sets with
  | nil => simp [purgeLoop] at h
  | cons d rest ih =>
      simp only [purgeLoop, List.mem_append] at h
      rcases h with h | h
      · exact destroy_mem_purgeEntryTrace h
      · exact ih h

/-- C3: for every cutoff `now - olderThan` and every backend state, the
purge action only ever invokes the backend destroy operation on entries
whose resolved creation instant is strictly before the cutoff; an entry
with `createdAt ≥ cutoff` is never destroyed. -/
theorem purge_never_destroys_young (args : List String) (olderThan now : Int)
    (dry : Bool) (z : Zfs) (n : String) (c : Int)
    (h : Event.destroy n c ∈ (purgeAction args olderThan now dry z).1) :
    c < now - olderThan := by
  unfold purgeAction at h
  split at h
  · simp at h
  · split at h
    · simp at h
    · simp only [List.mem_cons] at h
      rcases h with h | h
      · simp at h
      · exact destroy_mem_purgeLoop h

/-- C3 witness: on the concrete `tank` backend a destroy is performed,
and its entry is indeed older than the cutoff `100 - 10`. -/
theorem purge_never_destroys_young_witness :
    Event.destroy "tank@old" 5 ∈ (purgeAction [] 10 100 false zPurge).1
      ∧ (5 : Int) < 100 - 10 :=
  ⟨by decide,
    purge_never_destroys_young [] 10 100 false zPurge "tank@old" 5 (by decide)⟩

/-- The purge loop processes a concatenation piecewise: no iteration's
outcome can abort the iterations after it. -/
theorem purgeLoop_append (mark : Int) (dry : Bool) (l1 l2 : List DsEntry) :
    purgeLoop mark dry (l1 ++ l2)
      = purgeLoop mark dry l1 ++ purgeLoop mark dry l2 := by
  induction l1 with
  | nil => simp [purgeLoop]
  | cons d rest ih => simp [purgeLoop, ih]

/-- C5: a failing destroy is non-fatal to the batch.  If an eligible
entry `d`'s backend destroy fails, its iteration logs the failure, the
entries after `d` are still evaluated exactly as they would be on their
own, and the purge action still completes with a `nil` error whenever
enumeration succeeded. -/
theorem purge_destroy_failure_nonfatal (mark : Int) (pre suf : List DsEntry)
    (d : DsEntry) (c : Int) (msg : String)
    (htyp : d.typ = TypeSnapshot) (hc : getCreationTime d = .ok c)
    (hlt : c < mark) (hdes : d.destroyRes = .error msg) :
    purgeLoop mark false (pre ++ d :: suf)
      = purgeLoop mark false pre
        ++ ([.logDebug d.name, .destroy d.name c, .logError msg]
          ++ purgeLoop mark false suf)
    ∧ ∀ (args : List String) (olderThan now : Int) (z : Zfs) (dat : Dataset)
        (sets : List DsEntry),
        z.getDataset "tank" = .ok dat → dat.childrenRes = .ok sets →
        (purgeAction args olderThan now false z).2 = .ok () := by
  constructor
  · rw [purgeLoop_append]
    have hd : purgeEntryTrace mark false d
        = [.logDebug d.name, .destroy d.name c, .logError msg] := by
      unfold purgeEntryTrace
      rw [hc, hdes]
      simp [htyp, hlt]
    simp [purgeLoop, hd]
  · intro args olderThan now z dat sets hz hch
    simp [purgeAction, hz, hch]

/-- C5 witness: with the stuck snapshot between two healthy old ones,
its failed destroy is logged and the later entry is still processed;
the purge action on that backend returns `nil`. -/
theorem purge_destroy_failure_nonfatal_witness :
    purgeLoop 90 false ([snapOld] ++ snapStuck :: [snapOld2])
      = purgeLoop 90 false [snapOld]
        ++ ([.logDebug "tank@stuck", .destroy "tank@stuck" 3,
            .logError "dataset is busy"]
          ++ purgeLoop 90 false [snapOld2])
    ∧ (purgeAction [] 10 100 false zStuck).2 = .ok () :=
  ⟨(purge_destroy_failure_nonfatal 90 [snapOld] [snapOld2] snapStuck 3
      "dataset is busy" (by decide) (by decide) (by decide) (by decide)).1,
    (purge_destroy_failure_nonfatal 90 [snapOld] [snapOld2] snapStuck 3
      "dataset is busy" (by decide) (by decide) (by decide) (by decide)).2
      [] 10 100 zStuck tankStuckDs [snapOld, snapStuck, snapOld2]
      (by decide) (by decide)⟩

/-- C6 counterexample: `purge` invoked with the dataset name `mydata` on
the command line still sweeps the fixed dataset `tank`: it looks up
`tank`, destroys `tank`'s old snapshot, never looks up `mydata`, and
leaves `mydata`'s equally old snapshot untouched. -/
theorem purge_ignores_cli_dataset_counterexample :
    purgeAction ["mydata"] 10 100 false zTwo
      = ([.getDataset "tank", .logDebug "tank@old", .destroy "tank@old" 5],
          .ok ())
    ∧ Event.getDataset "mydata" ∉ (purgeAction ["mydata"] 10 100 false zTwo).1
    ∧ Event.destroy "mydata@old" 5
        ∉ (purgeAction ["mydata"] 10 100 false zTwo).1 :=
  ⟨by decide, by decide, by decide⟩

/-- C6 amended: the purge action ignores the dataset names supplied on
the command line — its behaviour is identical for any argument list —
and always begins by looking up the fixed built-in dataset `tank`. -/
theorem purge_always_targets_tank (args args2 : List String)
    (olderThan now : Int) (dry : Bool) (z : Zfs) :
    purgeAction args olderThan now dry z = purgeAction args2 olderThan now dry z
    ∧ (purgeAction args olderThan now dry z).1.head?
        = some (.getDataset "tank") := by
  constructor
  · rfl
  · unfold purgeAction
    split
    · rfl
    · split
      · rfl
      · rfl

/-- With `--dest` empty, one snapshot step never reaches `send`, so it
never starts a subprocess. -/
theorem spawn_not_mem_snapshotStep {z : Zfs} {ctx : SnapCtx} {label : String}
    {env : SendEnv} {name : String} (hd : ctx.dest = "")
    (t d : String) (u g : Nat) :
    Event.spawn t d u g ∉ (snapshotStep z ctx label env name).1 := by
  unfold snapshotStep
  split
  · simp
  · split
    · simp
    · split
      · simp
      · split
        · simp
        · split
          · simp
          · simp [hd]

/-- With `--dest` empty, the whole snapshot action never starts a
subprocess, whatever dataset names were given. -/
theorem spawn_not_mem_snapshotAction {z : Zfs} {ctx : SnapCtx} {label : String}
    {env : SendEnv} (hd : ctx.dest = "") (names : List String)
    (t d : String) (u g : Nat) :
    Event.spawn t d u g ∉ (snapshotAction z ctx label env names).1 := by
  induction names with
  | nil => simp [snapshotAction]
  | cons n rest ih =>
      simp only [snapshotAction]
      split
      · exact spawn_not_mem_snapshotStep hd t d u g
      · simp only [List.mem_append, not_or]
        exact ⟨spawn_not_mem_snapshotStep hd t d u g, ih⟩

/-- C4 counterexample: in a run with a remote target and no destination
the step does perform a side effect before reporting the configuration
error — the whole run equals `[getDataset, createSnapshot]` followed by
the `no dest specified` error, so a snapshot has been created by the
time the error is reported. -/
theorem snapshot_noDest_creates_before_error :
    snapshotAction zData ctxRemoteNoDest "2024-01-01T00:00:00Z" envOk
        ["tank/data"]
      = ([.getDataset "tank/data",
          .createSnapshot "tank/data" "2024-01-01T00:00:00Z" false],
          .error .noDest)
    ∧ Event.createSnapshot "tank/data" "2024-01-01T00:00:00Z" false
        ∈ (snapshotAction zData ctxRemoteNoDest "2024-01-01T00:00:00Z" envOk
            ["tank/data"]).1 :=
  ⟨by decide, by decide⟩

/-- C4 amended: when a remote target is given without a destination
path, the configuration error `no dest specified` is returned — after
the current dataset's snapshot has already been created, but before any
subprocess is spawned (no spawn event occurs in any such run). -/
theorem snapshot_noDest_error_before_spawn (z : Zfs) (ctx : SnapCtx)
    (label name : String) (env : SendEnv) (set : Dataset)
    (snaps : List ExtDataset)
    (ht : ctx.target ≠ "") (hd : ctx.dest = "")
    (h1 : z.getDataset name = .ok set) (h2 : getSnapshots set = .ok snaps)
    (h3 : snaps ≠ []) (h4 : set.snapshotRes = .ok ()) :
    snapshotStep z ctx label env name
      = ([.getDataset name, .createSnapshot name label false], .error .noDest)
    ∧ ∀ (names : List String) (t d : String) (u g : Nat),
        Event.spawn t d u g ∉ (snapshotAction z ctx label env names).1 := by
  constructor
  · obtain ⟨p, hp⟩ := Option.isSome_iff_exists.mp (List.getLast?_isSome.mpr h3)
    simp only [snapshotStep, h1, h2, resolvePrev, hp, h4]
    simp [ht, hd]
  · intro names t d u g
    exact spawn_not_mem_snapshotAction hd names t d u g

/-- C4 witness: the amended behaviour on the concrete `tank/data`
backend with `--send backup.example` and no `--dest`. -/
theorem snapshot_noDest_error_before_spawn_witness :
    snapshotStep zData ctxRemoteNoDest "2024-01-01T00:00:00Z" envOk "tank/data"
      = ([.getDataset "tank/data",
          .createSnapshot "tank/data" "2024-01-01T00:00:00Z" false],
          .error .noDest)
    ∧ Event.spawn "backup.example" "" 0 0
        ∉ (snapshotAction zData ctxRemoteNoDest "2024-01-01T00:00:00Z" envOk
            ["tank/data"]).1 :=
  ⟨(snapshot_noDest_error_before_spawn zData ctxRemoteNoDest
      "2024-01-01T00:00:00Z" "tank/data" envOk dataDs
      [{ dataset := snapData, baseName := "tank/data", created := 50 }]
      (by decide) (by decide) (by decide) (by decide) (by decide)
      (by decide)).1,
    (snapshot_noDest_error_before_spawn zData ctxRemoteNoDest
      "2024-01-01T00:00:00Z" "tank/data" envOk dataDs
      [{ dataset := snapData, baseName := "tank/data", created := 50 }]
      (by decide) (by decide) (by decide) (by decide) (by decide)
      (by decide)).2 ["tank/data"] "backup.example" "" 0 0⟩

/-- C8: for every transfer environment, `send` with no predecessor never
emits an incremental stream, and (whenever the pipe and the subprocess
start succeed) emits the full stream of the snapshot; with a predecessor
present it never emits a full stream, and under the same conditions
emits the incremental delta from the predecessor to the snapshot. -/
theorem send_full_iff_no_predecessor (target dest snapName : String)
    (uid gid : Nat) (env : SendEnv) :
    (∀ p s, Event.incrSend p s
        ∉ (send target dest uid gid snapName none env).1)
    ∧ (env.stdinPipeOk = true → env.startOk = true →
        Event.fullSend snapName
          ∈ (send target dest uid gid snapName none env).1)
    ∧ ∀ prev : ExtDataset,
        (∀ s, Event.fullSend s
            ∉ (send target dest uid gid snapName (some prev) env).1)
        ∧ (env.stdinPipeOk = true → env.startOk = true →
            Event.incrSend prev.dataset.name snapName
              ∈ (send target dest uid gid snapName (some prev) env).1) := by
  obtain ⟨pOk, stOk, smOk, w⟩ := env
  refine ⟨fun p s => ?_, fun h1 h2 => ?_, fun prev => ⟨fun s => ?_, fun h1 h2 => ?_⟩⟩ <;>
    cases pOk <;> cases stOk <;> cases smOk <;>
      simp_all [send, sendBody]

/-- C8 witness: in the all-successful environment, the no-predecessor
transfer contains the full-send event and no incremental event. -/
theorem send_full_iff_no_predecessor_witness :
    Event.fullSend "tank/data@new"
        ∈ (send "host" "pool/recv" 0 0 "tank/data@new" none envOk).1
    ∧ Event.incrSend "tank/data@prev" "tank/data@new"
        ∉ (send "host" "pool/recv" 0 0 "tank/data@new" none envOk).1 :=
  ⟨(send_full_iff_no_predecessor "host" "pool/recv" "tank/data@new" 0 0
      envOk).2.1 rfl rfl,
    (send_full_iff_no_predecessor "host" "pool/recv" "tank/data@new" 0 0
      envOk).1 "tank/data@prev" "tank/data@new"⟩

/-- Membership through one insertion step of the sort. -/
theorem mem_insertBy {lt : α → α → Bool} {x a : α} {l : List α} :
    a ∈ insertBy lt x l ↔ a = x ∨ a ∈ l := by
  induction l with
  | nil => simp [insertBy]
  | cons y ys ih =>
      simp only [insertBy]
      split
      · simp
      · simp only [List.mem_cons, ih]
        tauto

/-- Membership through the fold of insertion steps. -/
theorem mem_foldl_insertBy {lt : α → α → Bool} {a : α} :
    ∀ {l acc : List α},
      a ∈ l.foldl (fun acc x => insertBy lt x acc) acc → a ∈ acc ∨ a ∈ l := by
  intro l
  induction l with
  | nil => intro acc h; exact Or.inl h
  | cons x xs ih =>
      intro acc h
      rcases ih h with h | h
      · rcases mem_insertBy.mp h with rfl | h
        · simp
        · exact Or.inl h
      · simp [h]

/-- The sort only permutes: every element of the output was an input. -/
theorem mem_sortSort {lt : α → α → Bool} {a : α} {l : List α}
    (h : a ∈ sortSort lt l) : a ∈ l := by
  rcases mem_foldl_insertBy h with h | h
  · simp at h
  · exact h

/-- Every collected catalog entry records a snapshot child whose
creation time resolved successfully to the recorded instant. -/
theorem collectSnapshots_created {sets : List DsEntry} {ext : ExtDataset}
    (h : ext ∈ collectSnapshots sets) :
    getCreationTime ext.dataset = .ok ext.created ∧ ext.dataset ∈ sets := by
  induction sets with
  | nil => simp [collectSnapshots] at h
  | cons s rest ih =>
      simp only [collectSnapshots] at h
      split at h
      · split at h
        · rcases ih h with ⟨h1, h2⟩
          exact ⟨h1, List.mem_cons_of_mem s h2⟩
        · rename_i created hok
          rcases List.mem_cons.mp h with rfl | h
          · exact ⟨hok, List.mem_cons_self s rest⟩
          · rcases ih h with ⟨h1, h2⟩
            exact ⟨h1, List.mem_cons_of_mem s h2⟩
      · rcases ih h with ⟨h1, h2⟩
        exact ⟨h1, List.mem_cons_of_mem s h2⟩

/-- C9: a snapshot child whose timestamp resolution fails never appears
in the sequence `getSnapshots` returns, and its presence does not make
`getSnapshots` fail: the listing still succeeds for the rest. -/
theorem getSnapshots_excludes_unresolvable (set : Dataset)
    (sets : List DsEntry) (d : DsEntry) (e : String)
    (h1 : set.childrenRes = .ok sets) (hd : d ∈ sets)
    (he : getCreationTime d = .error e) :
    ∃ out, getSnapshots set = .ok out ∧ ∀ ext ∈ out, ext.dataset ≠ d := by
  refine ⟨sortSort byCreatedLess (collectSnapshots sets), ?_, ?_⟩
  · unfold getSnapshots
    rw [h1]
  · intro ext hext hcontra
    have h3 := (collectSnapshots_created (mem_sortSort hext)).1
    rw [hcontra, he] at h3
    exact Except.noConfusion h3

/-- C9 witness: with one unresolvable and one valid snapshot, the
listing succeeds and omits the unresolvable one. -/
theorem getSnapshots_excludes_unresolvable_witness :
    ∃ out, getSnapshots setWithBad = .ok out ∧ ∀ ext ∈ out, ext.dataset ≠ snapBad :=
  getSnapshots_excludes_unresolvable setWithBad [snapBad, snapData] snapBad
    "unable to get creation property" (by decide) (by decide) (by decide)

/-- Inserting into a list that is non-decreasing by creation instant
keeps it non-decreasing. -/
theorem insertBy_pairwise_le {x : ExtDataset} {l : List ExtDataset}
    (h : l.Pairwise (fun a b => a.created ≤ b.created)) :
    (insertBy byCreatedLess x l).Pairwise (fun a b => a.created ≤ b.created) := by
  induction l with
  | nil => simp [insertBy]
  | cons y ys ih =>
      rw [List.pairwise_cons] at h
      obtain ⟨hy, hys⟩ := h
      simp only [insertBy]
      split
      · rename_i hlt
        have hxy : x.created < y.created := by
          simpa [byCreatedLess] using hlt
        refine List.Pairwise.cons ?_ (List.Pairwise.cons hy hys)
        intro z hz
        rcases List.mem_cons.mp hz with rfl | hz
        · exact le_of_lt hxy
        · exact le_trans (le_of_lt hxy) (hy z hz)
      · rename_i hnlt
        have hyx : y.created ≤ x.created := by
          have : ¬x.created < y.created := by
            simpa [byCreatedLess] using hnlt
          omega
        refine List.Pairwise.cons ?_ (ih hys)
        intro z hz
        rcases mem_insertBy.mp hz with rfl | hz
        · exact hyx
        · exact hy z hz

/-- The fold of insertion steps keeps the accumulator non-decreasing. -/
theorem foldl_insertBy_pairwise_le :
    ∀ (l acc : List ExtDataset),
      acc.Pairwise (fun a b => a.created ≤ b.created) →
      (l.foldl (fun acc x => insertBy byCreatedLess x acc) acc).Pairwise
        (fun a b => a.created ≤ b.created)
  | [], _, h => h
  | x :: xs, acc, h =>
      foldl_insertBy_pairwise_le xs (insertBy byCreatedLess x acc)
        (insertBy_pairwise_le h)

/-- The catalog sort always outputs a sequence that is non-decreasing by
creation instant. -/
theorem sortSort_pairwise_le (l : List ExtDataset) :
    (sortSort byCreatedLess l).Pairwise (fun a b => a.created ≤ b.created) :=
  foldl_insertBy_pairwise_le l [] (List.Pairwise.nil)

/-- C7 amended: `getSnapshots` returns entries sorted non-decreasing by
`createdAt`; no tie-break by name is applied — entries with equal
`createdAt` stay in the backend's enumeration order, so their relative
order depends on the input order. -/
theorem getSnapshots_sorted (set : Dataset) (out : List ExtDataset)
    (h : getSnapshots set = .ok out) :
    out.Pairwise (fun a b => a.created ≤ b.created) := by
  unfold getSnapshots at h
  split at h
  · exact Except.noConfusion h
  · rw [Except.ok.injEq] at h
    rw [← h]
    exact sortSort_pairwise_le _

/-- C7 witness: the sortedness of the concrete output for the tied
fixture. -/
theorem getSnapshots_sorted_witness :
    ([{ dataset := tieA, baseName := "tank/data", created := 100 },
      { dataset := tieB, baseName := "tank/data", created := 100 }] :
        List ExtDataset).Pairwise (fun a b => a.created ≤ b.created) :=
  getSnapshots_sorted setAB _ (by decide)

/-- C7 counterexample: `tank/data` enumerating the same two snapshots,
both created at instant 100, in the two possible orders: the listing
returns them in enumeration order both times, so the output for
equal-timestamp entries depends on the input order (and in the second
run is not in name order), refuting the deterministic-by-name tie-break. -/
theorem getSnapshots_tie_depends_on_input_order :
    (getSnapshots setAB).map (fun l => l.map (fun e => e.dataset.name))
        = .ok ["tank/data@a", "tank/data@b"]
    ∧ (getSnapshots setBA).map (fun l => l.map (fun e => e.dataset.name))
        = .ok ["tank/data@b", "tank/data@a"] :=
  ⟨by decide, by decide⟩

end Flux
